import Mathlib

/-!
Verification of the VPP kernel-interface and punt-socket plugins
(`kernel_vpp_ipsec.c`, `socket_vpp_socket.c`).

The development shallowly embeds the pure logic of the plugins: the SPI
generator (`permute`, `get_spi`), the algorithm mappers
(`convert_enc_alg`, `convert_int_alg`), the tunnel registry and the
`add_sa` / `add_policy` / `del_policy` state transitions, the punt
`get_port` of the socket, and the decode step of the receiver.  External
collaborators (the grpc engine, the kernel route service, the RNG) are
passed in as explicit outcome parameters; machine integers are `Nat`
with explicit `% 2 ^ 32` where 32-bit wraparound matters.
-/

/-- Status codes of the `status_t` of the daemon as used by the plugin. -/
inductive status_t where
  | SUCCESS
  | FAILED
  | NOT_SUPPORTED
  | NOT_FOUND
deriving DecidableEq, Repr

/-- Modelled from the spec: `htonl`/`ntohl` on a little-endian host is
the 32-bit byte reversal (SPIs travel in network byte
order).  It is a bijection of `[0, 2^32)`, so it does not affect any
distinctness statement. -/
def htonl (x : ℕ) : ℕ :=
  x % 256 * 16777216 + x / 256 % 256 * 65536 + x / 65536 % 256 * 256 + x / 16777216 % 256

/-- `ntohl` is the same byte reversal as `htonl`. -/
def ntohl (x : ℕ) : ℕ := htonl x

/-- The fixed prime of `get_spi`: `static const u_int p = 268435399`. -/
def p : ℕ := 268435399

/-- The fixed offset of `get_spi`: `offset = 0xc0000000`. -/
def spi_offset : ℕ := 0xc0000000

/-- `permute` from `kernel_vpp_ipsec.c`: map `x` with a one-to-one
function using quadratic residues.  `x` is first reduced mod `pp`; the
C multiplication is performed in `uint64_t`, and `x*x < 2^56` for
`x < pp ≤ 2^32`, so plain `Nat` arithmetic is exact. -/
def permute (x pp : ℕ) : ℕ :=
  let x' := x % pp
  let qr := x' * x' % pp
  if x' ≤ pp / 2 then qr else pp - qr

/-- The mixed counter value fed to `permute` by the `i`-th call of
`get_spi` after seeding: `ref_get(&this->nextspi) ^ this->mixspi`,
where `ref_get` atomically increments the 32-bit counter and returns
the new value (so call `i ≥ 1` sees counter `c0 + i` mod `2^32`). -/
def spi_input (c0 mix i : ℕ) : ℕ := ((c0 + i) % 4294967296) ^^^ mix

/-- The SPI returned by the `i`-th call of `get_spi`:
`htonl(offset + permute(ref_get(&this->nextspi) ^ this->mixspi, p))`. -/
def get_spi_value (c0 mix i : ℕ) : ℕ :=
  htonl (spi_offset + permute (spi_input c0 mix i) p)

/-- Balanced trial division: checks that no `d` with `a ≤ d < a + len`
divides `n`.  The interval is split in halves so that both the
evaluation depth and the proof term stay logarithmic. -/
def noDivSplit (n : ℕ) : ℕ → ℕ → ℕ → Bool
  | 0, _, len => len == 0
  | fuel+1, a, len =>
      if len = 0 then true
      else if len = 1 then n % a != 0
      else noDivSplit n fuel a (len / 2) && noDivSplit n fuel (a + len / 2) (len - len / 2)

lemma noDivSplit_correct (n : ℕ) : ∀ fuel a len, noDivSplit n fuel a len = true →
    ∀ d, a ≤ d → d < a + len → n % d ≠ 0 := by
  intro fuel
  induction fuel with
  | zero =>
    intro a len h d h1 h2
    simp only [noDivSplit, beq_iff_eq] at h
    omega
  | succ fuel ih =>
    intro a len h d h1 h2
    simp only [noDivSplit] at h
    by_cases h0 : len = 0
    · omega
    · by_cases hone : len = 1
      · rw [if_neg h0, if_pos hone] at h
        have hd : d = a := by omega
        subst hd
        simpa using h
      · rw [if_neg h0, if_neg hone] at h
        rw [Bool.and_eq_true] at h
        by_cases hlow : d < a + len / 2
        · exact ih a (len / 2) h.1 d h1 hlow
        · exact ih (a + len / 2) (len - len / 2) h.2 d (by omega) (by omega)

set_option maxRecDepth 100000 in
lemma check_268435399 : noDivSplit 268435399 15 2 16382 = true := by decide

/-- `268435399` has no divisor in `[2, 16383]`, and any proper divisor
`m > 16383` would have a cofactor in that range, so it is prime. -/
lemma p_prime : Nat.Prime p := by
  have hnd := noDivSplit_correct 268435399 15 2 16382 check_268435399
  rw [show p = 268435399 from rfl, Nat.prime_def_lt']
  refine ⟨by omega, ?_⟩
  intro m h2 hlt hdvd
  by_cases hm : m ≤ 16383
  · exact hnd m h2 (by omega) (Nat.mod_eq_zero_of_dvd hdvd)
  · push_neg at hm
    obtain ⟨k, hk⟩ := hdvd
    have hk0 : k ≠ 0 := by
      rintro rfl
      omega
    have hk1 : k ≠ 1 := by
      rintro rfl
      omega
    have hkle : k ≤ 16383 := by
      by_contra hgt
      push_neg at hgt
      have h1 : 16384 * 16384 ≤ m * k := Nat.mul_le_mul (by omega) (by omega)
      omega
    have hkd : k ∣ 268435399 := ⟨m, by rw [hk, Nat.mul_comm]⟩
    exact hnd k (by omega) (by omega) (Nat.mod_eq_zero_of_dvd hkd)

instance fact_p_prime : Fact (Nat.Prime p) := ⟨p_prime⟩

instance p_neZero : NeZero p := ⟨by norm_num [p]⟩

lemma p_pos : 0 < p := by norm_num [p]

/-- Values below `p` with equal squares mod `p` are equal or sum to `p`. -/
lemma sq_mod_eq_cases {x y : ℕ} (hx : x < p) (hy : y < p)
    (h : x * x % p = y * y % p) : x = y ∨ x + y = p := by
  have hcast : ((x : ZMod p)) * x = ((y : ZMod p)) * y := by
    have h1 := congrArg (fun a : ℕ => (a : ZMod p)) h
    simpa [ZMod.natCast_mod, Nat.cast_mul] using h1
  rcases mul_self_eq_mul_self_iff.mp hcast with he | hn
  · left
    have := congrArg ZMod.val he
    rwa [ZMod.val_cast_of_lt hx, ZMod.val_cast_of_lt hy] at this
  · have hz : ((x + y : ℕ) : ZMod p) = 0 := by
      push_cast
      rw [hn]
      ring
    have hdvd : p ∣ x + y := (ZMod.natCast_zmod_eq_zero_iff_dvd _ _).mp hz
    obtain ⟨k, hk⟩ := hdvd
    have hpv : p = 268435399 := rfl
    rw [hpv] at hk hx hy
    -- x + y < 2p forces k = 0 (then x = y = 0) or k = 1 (then x + y = p)
    rw [hpv]
    omega

/-- Since `p % 4 = 3`, a sum of two squares with one of them nonzero
mod `p` is never divisible by `p` (else `-1` would be a square). -/
lemma sum_sq_not_dvd {x y : ℕ} (hy1 : 0 < y) (hy2 : y < p) :
    ¬ p ∣ (x * x + y * y) := by
  intro hdvd
  have hb : (y : ZMod p) ≠ 0 := by
    rw [Ne, ZMod.natCast_zmod_eq_zero_iff_dvd]
    intro hd
    exact absurd (Nat.le_of_dvd hy1 hd) (not_le.mpr hy2)
  have h0 : (x : ZMod p) * x + (y : ZMod p) * y = 0 := by
    have := (ZMod.natCast_zmod_eq_zero_iff_dvd (x * x + y * y) p).mpr hdvd
    push_cast at this
    exact this
  have hsq : IsSquare (-1 : ZMod p) := by
    refine ⟨(x : ZMod p) * (y : ZMod p)⁻¹, ?_⟩
    have hxx : (x : ZMod p) * x = -((y : ZMod p) * y) := by
      linear_combination h0
    field_simp
    linear_combination -h0
  have hmod : p % 4 ≠ 3 := ZMod.exists_sq_eq_neg_one_iff.mp hsq
  exact hmod (by norm_num [p])

lemma qr_lt {x : ℕ} : x * x % p < p := Nat.mod_lt _ p_pos

/-- `permute x p` never exceeds `p`. -/
lemma permute_le (x : ℕ) : permute x p ≤ p := by
  have h1 : x % p * (x % p) % p < p := Nat.mod_lt _ p_pos
  simp only [permute]
  split <;> omega

/-- `permute` only depends on its argument mod `p`. -/
lemma permute_mod (x : ℕ) : permute x p = permute (x % p) p := by
  unfold permute
  rw [Nat.mod_mod_of_dvd x dvd_rfl]

/-- Injectivity of the quadratic-residue permutation on `[0, p)`. -/
lemma permute_inj {x y : ℕ} (hx : x < p) (hy : y < p)
    (h : permute x p = permute y p) : x = y := by
  unfold permute at h
  rw [Nat.mod_eq_of_lt hx, Nat.mod_eq_of_lt hy] at h
  have hqx : x * x % p < p := qr_lt
  have hqy : y * y % p < p := qr_lt
  have hpv : p = 268435399 := rfl
  by_cases h1 : x ≤ p / 2 <;> by_cases h2 : y ≤ p / 2 <;>
    simp only [h1, h2, if_pos, if_neg, if_true, if_false] at h
  · -- both in the low half: equal squares mod p
    rcases sq_mod_eq_cases hx hy h with he | hs
    · exact he
    · -- x + y = p is impossible with both ≤ p / 2 (p odd)
      exfalso
      rw [hpv] at h1 h2 hs
      omega
  · -- x low, y high: x*x % p = p - y*y % p, so p ∣ x² + y²
    exfalso
    have hsum : x * x % p + y * y % p = p := by omega
    have hd1 := Nat.div_add_mod (x * x) p
    have hd2 := Nat.div_add_mod (y * y) p
    have hdvd : p ∣ (x * x + y * y) := by
      refine ⟨x * x / p + y * y / p + 1, ?_⟩
      rw [hpv] at hsum hd1 hd2 ⊢
      omega
    have hy0 : 0 < y := by
      rw [hpv] at h2
      omega
    exact sum_sq_not_dvd hy0 hy hdvd
  · -- x high, y low: symmetric
    exfalso
    have hsum : x * x % p + y * y % p = p := by omega
    have hd1 := Nat.div_add_mod (x * x) p
    have hd2 := Nat.div_add_mod (y * y) p
    have hdvd : p ∣ (y * y + x * x) := by
      refine ⟨x * x / p + y * y / p + 1, ?_⟩
      rw [hpv] at hsum hd1 hd2 ⊢
      omega
    have hx0 : 0 < x := by
      rw [hpv] at h1
      omega
    exact sum_sq_not_dvd hx0 hx hdvd
  · -- both in the high half
    have hq : x * x % p = y * y % p := by omega
    rcases sq_mod_eq_cases hx hy hq with he | hs
    · exact he
    · exfalso
      rw [hpv] at h1 h2 hs
      omega

/-- A 32-bit value is recovered from its four bytes. -/
lemma bytes_recon (x : ℕ) (hx : x < 4294967296) :
    x = x % 256 + 256 * (x / 256 % 256) + 65536 * (x / 65536 % 256)
        + 16777216 * (x / 16777216 % 256) := by
  omega

/-- Base-256 digit uniqueness for four digits. -/
lemma digits_uniq {a b c d a' b' c' d' : ℕ}
    (hb : b ≤ 255) (hc : c ≤ 255) (hd : d ≤ 255)
    (hb' : b' ≤ 255) (hc' : c' ≤ 255) (hd' : d' ≤ 255)
    (h : a * 16777216 + b * 65536 + c * 256 + d
        = a' * 16777216 + b' * 65536 + c' * 256 + d') :
    a = a' ∧ b = b' ∧ c = c' ∧ d = d' := by
  omega

/-- `htonl` is injective on 32-bit values. -/
lemma htonl_inj {x y : ℕ} (hx : x < 4294967296) (hy : y < 4294967296)
    (h : htonl x = htonl y) : x = y := by
  unfold htonl at h
  obtain ⟨e1, e2, e3, e4⟩ :=
    digits_uniq
      (Nat.le_of_lt_succ (Nat.mod_lt _ (by decide)))
      (Nat.le_of_lt_succ (Nat.mod_lt _ (by decide)))
      (Nat.le_of_lt_succ (Nat.mod_lt _ (by decide)))
      (Nat.le_of_lt_succ (Nat.mod_lt _ (by decide)))
      (Nat.le_of_lt_succ (Nat.mod_lt _ (by decide)))
      (Nat.le_of_lt_succ (Nat.mod_lt _ (by decide))) h
  calc x = x % 256 + 256 * (x / 256 % 256) + 65536 * (x / 65536 % 256)
            + 16777216 * (x / 16777216 % 256) := bytes_recon x hx
    _ = y % 256 + 256 * (y / 256 % 256) + 65536 * (y / 65536 % 256)
            + 16777216 * (y / 16777216 % 256) := by rw [e1, e2, e3, e4]
    _ = y := (bytes_recon y hy).symm

/-- Claim C1 (amended): the quadratic-residue permutation
`permute(x, p)` is one-to-one on `[0, p)`; consequently any two
sequential `get_spi` calls whose mixed counter values
`(counter ^ mix)` are distinct modulo `p` return distinct SPIs.  (As
stated the claim is false: the mixed counter values live in
`[0, 2^32)` with `2^32 > p`, so two of `N ≤ p` sequential calls can
collide modulo `p`; see the counterexample.) -/
theorem C1_spi_uniqueness :
    (∀ x y, x < p → y < p → permute x p = permute y p → x = y) ∧
    (∀ c0 mix i j, spi_input c0 mix i % p ≠ spi_input c0 mix j % p →
      get_spi_value c0 mix i ≠ get_spi_value c0 mix j) := by
  constructor
  · exact fun x y hx hy h => permute_inj hx hy h
  · intro c0 mix i j hne heq
    apply hne
    unfold get_spi_value at heq
    have hpv : p = 268435399 := rfl
    have hso : spi_offset = 3221225472 := rfl
    have hli := permute_le (spi_input c0 mix i)
    have hlj := permute_le (spi_input c0 mix j)
    have hb1 : spi_offset + permute (spi_input c0 mix i) p < 4294967296 := by
      omega
    have hb2 : spi_offset + permute (spi_input c0 mix j) p < 4294967296 := by
      omega
    have h2 := htonl_inj hb1 hb2 heq
    have h3 : permute (spi_input c0 mix i) p = permute (spi_input c0 mix j) p := by
      omega
    rw [permute_mod (spi_input c0 mix i), permute_mod (spi_input c0 mix j)] at h3
    exact permute_inj (Nat.mod_lt _ p_pos) (Nat.mod_lt _ p_pos) h3

theorem C1_spi_uniqueness_witness :
    (3 : ℕ) = 3 ∧ get_spi_value 0 0 1 ≠ get_spi_value 0 0 2 :=
  ⟨C1_spi_uniqueness.1 3 3 (by decide) (by decide) rfl,
   C1_spi_uniqueness.2 0 0 1 2 (by decide)⟩

/-- Claim C1 counterexample: with seed counter `268435454` and mix
value `0x10000000`, calls `1` and `115` (both within the first
`N = 115 ≤ p` sequential calls) return the same SPI: call 1 feeds
`0x0FFFFFFF ^ 0x10000000 = 536870911` and call 115 feeds
`0x10000071 ^ 0x10000000 = 113` to `permute`, and
`536870911 ≡ 113 (mod p)`. -/
theorem C1_spi_counterexample :
    (1 : ℕ) ≠ 115 ∧ 115 ≤ p ∧
    get_spi_value 268435454 268435456 1 = get_spi_value 268435454 268435456 115 :=
  ⟨by decide, by decide, by decide⟩

/-- Modelled from the spec: strongswans `encryption_algorithm_t`
identifier for the null cipher (IKEv2 transform id 11). -/
def ENCR_NULL : ℕ := 11

/-- Modelled from the spec: strongswans `encryption_algorithm_t`
identifier for AES-CBC (IKEv2 transform id 12). -/
def ENCR_AES_CBC : ℕ := 12

/-- Modelled from the spec: strongswans `encryption_algorithm_t`
identifier for 3DES (IKEv2 transform id 3), explicitly unsupported. -/
def ENCR_3DES : ℕ := 3

/-- Modelled from the spec: strongswans `integrity_algorithm_t`
identifier for no integrity protection. -/
def AUTH_UNDEFINED : ℕ := 1024

/-- Modelled from the spec: strongswan id of HMAC-MD5-96. -/
def AUTH_HMAC_MD5_96 : ℕ := 1

/-- Modelled from the spec: strongswan id of HMAC-SHA1-96. -/
def AUTH_HMAC_SHA1_96 : ℕ := 2

/-- Modelled from the spec: strongswan id of HMAC-SHA2-256-128. -/
def AUTH_HMAC_SHA2_256_128 : ℕ := 12

/-- Modelled from the spec: strongswan id of HMAC-SHA2-384-192. -/
def AUTH_HMAC_SHA2_384_192 : ℕ := 13

/-- Modelled from the spec: strongswan id of HMAC-SHA2-512-256. -/
def AUTH_HMAC_SHA2_512_256 : ℕ := 14

/-- The engine crypto algorithm encoding
(`Ipsec__CryptoAlgorithm` of the rpc proto definition). -/
inductive crypto_alg_t where
  | NONE_CRYPTO
  | AES_CBC_128
  | AES_CBC_192
  | AES_CBC_256
deriving DecidableEq, Repr

/-- The engine integrity algorithm encoding
(`Ipsec__IntegAlgorithm` of the rpc proto definition). -/
inductive integ_alg_t where
  | NONE_INTEG
  | MD5_96
  | SHA1_96
  | SHA_256_128
  | SHA_384_192
  | SHA_512_256
deriving DecidableEq, Repr

/-- `convert_enc_alg` from `kernel_vpp_ipsec.c`: converts strongswan
encryption algorithm numbering (with the raw key, whose byte length
times 8 selects the AES variant) to vpp numbering; `none` models the
`FAILED` return. -/
def convert_enc_alg (alg : ℕ) (key : List ℕ) : Option crypto_alg_t :=
  if alg = ENCR_NULL then
    some crypto_alg_t.NONE_CRYPTO
  else if alg = ENCR_AES_CBC then
    if key.length * 8 = 128 then some crypto_alg_t.AES_CBC_128
    else if key.length * 8 = 192 then some crypto_alg_t.AES_CBC_192
    else if key.length * 8 = 256 then some crypto_alg_t.AES_CBC_256
    else none
  else none

/-- `convert_int_alg` from `kernel_vpp_ipsec.c`: converts strongswan
integrity algorithm numbering to vpp numbering; `none` models `FAILED`. -/
def convert_int_alg (alg : ℕ) : Option integ_alg_t :=
  if alg = AUTH_UNDEFINED then some integ_alg_t.NONE_INTEG
  else if alg = AUTH_HMAC_MD5_96 then some integ_alg_t.MD5_96
  else if alg = AUTH_HMAC_SHA1_96 then some integ_alg_t.SHA1_96
  else if alg = AUTH_HMAC_SHA2_256_128 then some integ_alg_t.SHA_256_128
  else if alg = AUTH_HMAC_SHA2_384_192 then some integ_alg_t.SHA_384_192
  else if alg = AUTH_HMAC_SHA2_512_256 then some integ_alg_t.SHA_512_256
  else none

/-- `chunk_to_ipv4` from `kernel_vpp_ipsec.c`: a raw address chunk of
exactly 4 bytes is rendered as dotted-quad text (via `inet_ntop`);
any other length yields NULL, modelled as `none`. -/
def chunk_to_ipv4 (address : List ℕ) : Option String :=
  match address with
  | [a, b, c, d] =>
      some (toString a ++ "." ++ toString b ++ "." ++ toString c ++ "." ++ toString d)
  | _ => none

/-- Modelled from the spec: `chunk_to_hex` renders key material as a
hex string; it never fails for the key sizes at hand. -/
def chunk_to_hex (c : List ℕ) : String :=
  String.join (c.map (fun b => toString (b / 16 % 16) ++ toString (b % 16)))

/-- The `tunnel_t` record of `kernel_vpp_ipsec.c`.  Unset C string
fields (NULL) are `none`. -/
structure tunnel_t where
  if_name : String
  un_if_name : String
  src_spi : ℕ
  dst_spi : ℕ
  src_addr : Option String
  dst_addr : Option String
  enc_alg : crypto_alg_t
  int_alg : integ_alg_t
  src_enc_key : Option String
  dst_enc_key : Option String
  src_int_key : Option String
  dst_int_key : Option String
deriving DecidableEq, Repr

/-- `tunnel_equals` from `kernel_vpp_ipsec.c`: equality for the
established-tunnel hash table — same remote SPI and both remote
addresses non-NULL and textually equal. -/
def tunnel_equals (one two : tunnel_t) : Bool :=
  one.dst_spi == two.dst_spi &&
  one.dst_addr.isSome && two.dst_addr.isSome &&
  one.dst_addr == two.dst_addr

/-- Lookup in the half-open cache (hashtable keyed by the request id).
The hashtable keeps at most one entry per key. -/
def cache_get (c : List (ℕ × tunnel_t)) (r : ℕ) : Option tunnel_t :=
  (c.find? (fun e => e.1 == r)).map (fun e => e.2)

/-- Removal from the half-open cache: drops the entry under key `r`
(the hashtable keeps keys unique, so dropping every match coincides
with dropping the one entry). -/
def cache_del (c : List (ℕ × tunnel_t)) (r : ℕ) : List (ℕ × tunnel_t) :=
  c.filter (fun e => !(e.1 == r))

/-- `put` into the half-open cache: replaces any existing entry under
the same key. -/
def cache_put (c : List (ℕ × tunnel_t)) (r : ℕ) (t : tunnel_t) : List (ℕ × tunnel_t) :=
  (r, t) :: cache_del c r

/-- Lookup in the established-tunnels hashtable (keyed by
`tunnel_equals`, i.e. by remote SPI and remote address). -/
def tunnels_get (l : List tunnel_t) (key : tunnel_t) : Option tunnel_t :=
  l.find? (fun t => tunnel_equals key t)

/-- Removal from the established-tunnels hashtable. -/
def tunnels_del (l : List tunnel_t) (key : tunnel_t) : List tunnel_t :=
  l.filter (fun t => !(tunnel_equals key t))

/-- `put` into the established-tunnels hashtable (the tunnel is its
own key): replaces any entry equal to it. -/
def tunnels_put (l : List tunnel_t) (t : tunnel_t) : List tunnel_t :=
  t :: tunnels_del l t

/-- The mutable registry state of `private_kernel_vpp_ipsec_t`:
half-open cache, established tunnels, interface-name counter, and the
`install_routes` setting. -/
structure IpsecState where
  cache : List (ℕ × tunnel_t)
  tunnels : List tunnel_t
  next_index : ℕ
  manage_routes : Bool
deriving DecidableEq, Repr

/-- The lookup key built by `vpp_add_del_route`:
`tunnel_t _tun = { .dst_spi = ..., .dst_addr = ... }` with every other
field zero-initialized. -/
def mk_key (spi : ℕ) (addr : Option String) : tunnel_t :=
  { if_name := "", un_if_name := "", src_spi := 0, dst_spi := spi,
    src_addr := none, dst_addr := addr,
    enc_alg := crypto_alg_t.NONE_CRYPTO, int_alg := integ_alg_t.NONE_INTEG,
    src_enc_key := none, dst_enc_key := none,
    src_int_key := none, dst_int_key := none }

/-- Read-only lookup of an established tunnel by
(remote SPI, remote address), as done by the `ROUTE_ADD` branch of
`vpp_add_del_route`. -/
def lookup_established (s : IpsecState) (spi : ℕ) (addr : Option String) : Option tunnel_t :=
  tunnels_get s.tunnels (mk_key spi addr)

/-- Removal of an established tunnel by (remote SPI, remote address),
as done by the `ROUTE_DEL` branch of `vpp_add_del_route`: returns the
removed record (if any) and the new state. -/
def remove_established (s : IpsecState) (spi : ℕ) (addr : Option String) :
    Option tunnel_t × IpsecState :=
  (tunnels_get s.tunnels (mk_key spi addr),
   { s with tunnels := tunnels_del s.tunnels (mk_key spi addr) })

/-- The `kernel_ipsec_sa_id_t` fields used by `add_sa`: endpoint
addresses as raw byte chunks and the SPI in network byte order. -/
structure kernel_ipsec_sa_id_t where
  src : List ℕ
  dst : List ℕ
  spi : ℕ
deriving DecidableEq, Repr

/-- The modes of `ipsec_mode_t`. -/
inductive ipsec_mode_t where
  | MODE_TRANSPORT
  | MODE_TUNNEL
  | MODE_BEET
deriving DecidableEq, Repr

/-- The `kernel_ipsec_add_sa_t` fields used by `add_sa`. -/
structure kernel_ipsec_add_sa_t where
  reqid : ℕ
  mode : ipsec_mode_t
  inbound : Bool
  enc_alg : ℕ
  enc_key : List ℕ
  int_alg : ℕ
  int_key : List ℕ
deriving DecidableEq, Repr

/-- `add_sa` from `kernel_vpp_ipsec.c`.  `iface` is the result of the
external `charon->kernel->get_interface` call (NULL is `none`) and
`engineOk` the outcome of the grpc `create_tunnel` call; both are
external collaborators passed in explicitly.  Inbound SAs cache a
half-open tunnel under the request id; outbound SAs complete it,
create the engine tunnel and re-key it into the established table. -/
def add_sa (iface : Option String) (engineOk : Bool)
    (id : kernel_ipsec_sa_id_t) (data : kernel_ipsec_add_sa_t)
    (s : IpsecState) : status_t × IpsecState :=
  if data.mode ≠ ipsec_mode_t.MODE_TUNNEL then
    (status_t.NOT_SUPPORTED, s)
  else if data.inbound then
    match convert_enc_alg data.enc_alg data.enc_key with
    | none => (status_t.NOT_SUPPORTED, s)
    | some vpp_enc_alg =>
      match convert_int_alg data.int_alg with
      | none => (status_t.NOT_SUPPORTED, s)
      | some vpp_int_alg =>
        match iface with
        | none => (status_t.FAILED, s)
        | some un_if_name =>
          -- the interface-name counter is advanced before the address
          -- conversion check, exactly as in the source
          let s1 : IpsecState := { s with next_index := s.next_index + 1 }
          let tunnel : tunnel_t :=
            { if_name := "tun-" ++ toString s.next_index,
              un_if_name := un_if_name,
              src_spi := ntohl id.spi,
              dst_spi := 0,
              src_addr := chunk_to_ipv4 id.dst,
              dst_addr := chunk_to_ipv4 id.src,
              enc_alg := vpp_enc_alg,
              int_alg := vpp_int_alg,
              src_enc_key := some (chunk_to_hex data.enc_key),
              dst_enc_key := none,
              src_int_key := some (chunk_to_hex data.int_key),
              dst_int_key := none }
          if tunnel.src_addr = none ∨ tunnel.dst_addr = none then
            (status_t.FAILED, s1)
          else
            (status_t.SUCCESS,
             { s1 with cache := cache_put s1.cache data.reqid tunnel })
  else
    match cache_get s.cache data.reqid with
    | none => (status_t.NOT_FOUND, s)
    | some tunnel =>
      let s1 : IpsecState := { s with cache := cache_del s.cache data.reqid }
      let tunnel' : tunnel_t :=
        { tunnel with
          dst_enc_key := some (chunk_to_hex data.enc_key),
          dst_int_key := some (chunk_to_hex data.int_key),
          dst_spi := ntohl id.spi }
      if engineOk then
        (status_t.SUCCESS, { s1 with tunnels := tunnels_put s1.tunnels tunnel' })
      else
        (status_t.FAILED, s1)

/-- Policy directions (`policy_dir_t`). -/
inductive policy_dir_t where
  | POLICY_IN
  | POLICY_OUT
  | POLICY_FWD
deriving DecidableEq, Repr

/-- Policy types (`policy_type_t`). -/
inductive policy_type_t where
  | POLICY_IPSEC
  | POLICY_PASS
  | POLICY_DROP
deriving DecidableEq, Repr

/-- The destination traffic selector, already resolved to a subnet via
`to_subnet` (address bytes and its pfx length). -/
structure traffic_selector_t where
  subnet : List ℕ
  pfx_len : ℕ
deriving DecidableEq, Repr

/-- The `kernel_ipsec_policy_id_t` fields used by `vpp_add_del_route`. -/
structure kernel_ipsec_policy_id_t where
  dir : policy_dir_t
  dst_ts : traffic_selector_t
deriving DecidableEq, Repr

/-- The `ipsec_sa_cfg_t` fields used by `vpp_add_del_route`: the mode
and the ESP SPI (network byte order). -/
structure ipsec_sa_cfg_t where
  mode : ipsec_mode_t
  esp_spi : ℕ
deriving DecidableEq, Repr

/-- The `kernel_ipsec_manage_policy_t` fields used by
`vpp_add_del_route`: policy type, the SA descriptor (`NULL` is `none`)
and the remote address `dst` as a raw byte chunk. -/
structure kernel_ipsec_manage_policy_t where
  type : policy_type_t
  sa : Option ipsec_sa_cfg_t
  dst : List ℕ
deriving DecidableEq, Repr

/-- The two route operations (`routes_op_e`). -/
inductive routes_op_e where
  | ROUTE_DEL
  | ROUTE_ADD
deriving DecidableEq, Repr

/-- Calls the plugin issues to external services while managing routes:
`charon->kernel->add_route`, `charon->kernel->del_route`, and the grpc
tunnel deletion performed by `delete_tunnel`. -/
inductive ext_call_t where
  | route_add (subnet : List ℕ) (pfx_len : ℕ) (gw : List ℕ) (if_name : String)
  | route_del (subnet : List ℕ) (pfx_len : ℕ) (gw : List ℕ) (if_name : String)
  | tunnel_del (if_name : String)
deriving DecidableEq, Repr

/-- `vpp_add_del_route` from `kernel_vpp_ipsec.c`.  `routeRc` is the
status the external kernel-route service returns for the add/del route
call and `vacDelOk` the outcome of the grpc delete in `delete_tunnel`;
the returned list records the external calls actually issued.
Non-IPsec, SA-less or non-tunnel-mode policies are unsupported; inbound
(and forward) policies are a success no-op; otherwise the established
tunnel is looked up by (remote SPI, remote address) — on `ROUTE_ADD` a
route via its interface is added, on `ROUTE_DEL` the record is removed,
the route deleted and the engine tunnel deleted, failure of the grpc
delete forcing the overall status to `FAILED`. -/
def vpp_add_del_route (routeRc : status_t) (vacDelOk : Bool)
    (s : IpsecState) (id : kernel_ipsec_policy_id_t)
    (data : kernel_ipsec_manage_policy_t) (op : routes_op_e) :
    status_t × IpsecState × List ext_call_t :=
  match data.sa with
  | none => (status_t.NOT_SUPPORTED, s, [])
  | some sa =>
    if data.type ≠ policy_type_t.POLICY_IPSEC ∨ sa.mode ≠ ipsec_mode_t.MODE_TUNNEL then
      (status_t.NOT_SUPPORTED, s, [])
    else if id.dir ≠ policy_dir_t.POLICY_OUT then
      (status_t.SUCCESS, s, [])
    else
      let key := mk_key (ntohl sa.esp_spi) (chunk_to_ipv4 data.dst)
      match op with
      | routes_op_e.ROUTE_ADD =>
        match tunnels_get s.tunnels key with
        | none => (status_t.FAILED, s, [])
        | some tunnel =>
          (routeRc, s,
           [ext_call_t.route_add id.dst_ts.subnet id.dst_ts.pfx_len data.dst tunnel.if_name])
      | routes_op_e.ROUTE_DEL =>
        match tunnels_get s.tunnels key with
        | none => (status_t.FAILED, s, [])
        | some tunnel =>
          let s1 : IpsecState := { s with tunnels := tunnels_del s.tunnels key }
          let rc := if vacDelOk then routeRc else status_t.FAILED
          (rc, s1,
           [ext_call_t.route_del id.dst_ts.subnet id.dst_ts.pfx_len data.dst tunnel.if_name,
            ext_call_t.tunnel_del tunnel.if_name])

/-- `add_policy` from `kernel_vpp_ipsec.c`: with route management
enabled it delegates to `vpp_add_del_route` with `ROUTE_ADD`,
otherwise it is a success no-op. -/
def add_policy (routeRc : status_t) (vacDelOk : Bool)
    (s : IpsecState) (id : kernel_ipsec_policy_id_t)
    (data : kernel_ipsec_manage_policy_t) :
    status_t × IpsecState × List ext_call_t :=
  if s.manage_routes then vpp_add_del_route routeRc vacDelOk s id data routes_op_e.ROUTE_ADD
  else (status_t.SUCCESS, s, [])

/-- `del_policy` from `kernel_vpp_ipsec.c`: with route management
enabled it delegates to `vpp_add_del_route` with `ROUTE_DEL`,
otherwise it is a success no-op. -/
def del_policy (routeRc : status_t) (vacDelOk : Bool)
    (s : IpsecState) (id : kernel_ipsec_policy_id_t)
    (data : kernel_ipsec_manage_policy_t) :
    status_t × IpsecState × List ext_call_t :=
  if s.manage_routes then vpp_add_del_route routeRc vacDelOk s id data routes_op_e.ROUTE_DEL
  else (status_t.SUCCESS, s, [])

/-- `get_port` from `socket_vpp_socket.c`, literally
`nat ? this->split ? this->port : this->natt : this->port`. -/
def get_port (split : Bool) (port natt : ℕ) (nat : Bool) : ℕ :=
  if nat then (if split then port else natt) else port

/-- The decoded IP packet abstraction (`ip_packet_t`) produced by the
external `ip_packet_create` parser. -/
structure ip_packet_t where
  source : List ℕ
  destination : List ℕ
  payload : List ℕ
deriving DecidableEq, Repr

/-- `chunk_skip`: drop the first `n` bytes (empty when shorter). -/
def chunk_skip (c : List ℕ) (n : ℕ) : List ℕ := c.drop n

/-- The decode step of `receiver` in `socket_vpp_socket.c` after a
datagram was read, parameterized by the result of the external
`ip_packet_create` parser (`none` models a NULL return).  When the
parse fails the source only logs and then dereferences the NULL
packet — undefined behaviour, modelled as `none`: no status (such as
`FAILED`) and no packet are ever produced.  On success it returns the
source, the destination, and the payload with the 8-byte UDP header
stripped. -/
def receiver_decode (parsed : Option ip_packet_t) :
    Option (List ℕ × List ℕ × List ℕ) :=
  match parsed with
  | none => none
  | some pk => some (pk.source, pk.destination, chunk_skip pk.payload 8)

/-- Claim C5: `convert_enc_alg` maps the null cipher and AES-CBC with
128/192/256-bit keys to exactly the documented engine ids and fails on
every other cipher id (3DES in particular) or AES key length;
`convert_int_alg` maps exactly the six documented integrity algorithms
and fails on everything else. -/
theorem C5_alg_mapping :
    (∀ key, convert_enc_alg ENCR_NULL key = some crypto_alg_t.NONE_CRYPTO) ∧
    (∀ key, key.length = 16 →
      convert_enc_alg ENCR_AES_CBC key = some crypto_alg_t.AES_CBC_128) ∧
    (∀ key, key.length = 24 →
      convert_enc_alg ENCR_AES_CBC key = some crypto_alg_t.AES_CBC_192) ∧
    (∀ key, key.length = 32 →
      convert_enc_alg ENCR_AES_CBC key = some crypto_alg_t.AES_CBC_256) ∧
    (∀ key, key.length ≠ 16 → key.length ≠ 24 → key.length ≠ 32 →
      convert_enc_alg ENCR_AES_CBC key = none) ∧
    (∀ alg key, alg ≠ ENCR_NULL → alg ≠ ENCR_AES_CBC →
      convert_enc_alg alg key = none) ∧
    (∀ key, convert_enc_alg ENCR_3DES key = none) ∧
    convert_int_alg AUTH_UNDEFINED = some integ_alg_t.NONE_INTEG ∧
    convert_int_alg AUTH_HMAC_MD5_96 = some integ_alg_t.MD5_96 ∧
    convert_int_alg AUTH_HMAC_SHA1_96 = some integ_alg_t.SHA1_96 ∧
    convert_int_alg AUTH_HMAC_SHA2_256_128 = some integ_alg_t.SHA_256_128 ∧
    convert_int_alg AUTH_HMAC_SHA2_384_192 = some integ_alg_t.SHA_384_192 ∧
    convert_int_alg AUTH_HMAC_SHA2_512_256 = some integ_alg_t.SHA_512_256 ∧
    (∀ alg, alg ≠ AUTH_UNDEFINED → alg ≠ AUTH_HMAC_MD5_96 →
      alg ≠ AUTH_HMAC_SHA1_96 → alg ≠ AUTH_HMAC_SHA2_256_128 →
      alg ≠ AUTH_HMAC_SHA2_384_192 → alg ≠ AUTH_HMAC_SHA2_512_256 →
      convert_int_alg alg = none) := by
  refine ⟨?_, ?_, ?_, ?_, ?_, ?_, ?_, ?_, ?_, ?_, ?_, ?_, ?_, ?_⟩
  · intro key
    simp [convert_enc_alg]
  · intro key h
    simp [convert_enc_alg, ENCR_NULL, ENCR_AES_CBC, h]
  · intro key h
    simp [convert_enc_alg, ENCR_NULL, ENCR_AES_CBC, h]
  · intro key h
    simp [convert_enc_alg, ENCR_NULL, ENCR_AES_CBC, h]
  · intro key h16 h24 h32
    have a1 : key.length * 8 ≠ 128 := by omega
    have a2 : key.length * 8 ≠ 192 := by omega
    have a3 : key.length * 8 ≠ 256 := by omega
    simp [convert_enc_alg, ENCR_NULL, ENCR_AES_CBC, a1, a2, a3]
  · intro alg key h1 h2
    simp [convert_enc_alg, h1, h2]
  · intro key
    simp [convert_enc_alg, ENCR_NULL, ENCR_AES_CBC, ENCR_3DES]
  · simp [convert_int_alg]
  · simp [convert_int_alg, AUTH_UNDEFINED, AUTH_HMAC_MD5_96]
  · simp [convert_int_alg, AUTH_UNDEFINED, AUTH_HMAC_MD5_96, AUTH_HMAC_SHA1_96]
  · simp [convert_int_alg, AUTH_UNDEFINED, AUTH_HMAC_MD5_96, AUTH_HMAC_SHA1_96,
          AUTH_HMAC_SHA2_256_128]
  · simp [convert_int_alg, AUTH_UNDEFINED, AUTH_HMAC_MD5_96, AUTH_HMAC_SHA1_96,
          AUTH_HMAC_SHA2_256_128, AUTH_HMAC_SHA2_384_192]
  · simp [convert_int_alg, AUTH_UNDEFINED, AUTH_HMAC_MD5_96, AUTH_HMAC_SHA1_96,
          AUTH_HMAC_SHA2_256_128, AUTH_HMAC_SHA2_384_192, AUTH_HMAC_SHA2_512_256]
  · intro alg h1 h2 h3 h4 h5 h6
    simp [convert_int_alg, h1, h2, h3, h4, h5, h6]

theorem C5_alg_mapping_witness :
    convert_enc_alg ENCR_AES_CBC (List.replicate 16 0) = some crypto_alg_t.AES_CBC_128 ∧
    convert_enc_alg ENCR_AES_CBC (List.replicate 24 0) = some crypto_alg_t.AES_CBC_192 ∧
    convert_enc_alg ENCR_AES_CBC (List.replicate 32 0) = some crypto_alg_t.AES_CBC_256 ∧
    convert_enc_alg ENCR_AES_CBC [0, 0, 0] = none ∧
    convert_enc_alg 99 [] = none ∧
    convert_int_alg 999 = none :=
  ⟨C5_alg_mapping.2.1 _ (by decide),
   C5_alg_mapping.2.2.1 _ (by decide),
   C5_alg_mapping.2.2.2.1 _ (by decide),
   C5_alg_mapping.2.2.2.2.1 _ (by decide) (by decide) (by decide),
   C5_alg_mapping.2.2.2.2.2.1 99 [] (by decide) (by decide),
   C5_alg_mapping.2.2.2.2.2.2.2.2.2.2.2.2.2 999 (by decide) (by decide)
     (by decide) (by decide) (by decide) (by decide)⟩

/-- Claim C10: for every key chunk of any length, `convert_enc_alg`
applied to the null cipher succeeds with the engine null-cipher id —
the key-length restriction applies only to AES-CBC and the key is
never inspected for the null cipher. -/
theorem C10_null_cipher_any_key :
    ∀ key, convert_enc_alg ENCR_NULL key = some crypto_alg_t.NONE_CRYPTO := by
  intro key
  simp [convert_enc_alg]

/-- Claim C3 (code evaluation): the `get_port` ternary returns the
configured NAT-T port when only a single socket is configured
(`split = false`) and the primary port when two sockets are configured
(`split = true`) — exactly the reverse of the claimed (and intended)
behaviour; its branches are swapped. -/
theorem C3_get_port_eval :
    get_port false 600 4500 true = 4500 ∧
    get_port true 500 4500 true = 500 ∧
    (4500 : ℕ) ≠ 600 ∧ (500 : ℕ) ≠ 4500 := by
  decide

/-- Claim C4 (code evaluation): when the external IP parser fails
(`ip_packet_create` returns NULL), the receiver decode step yields no
defined result at all — the source dereferences the NULL packet
instead of returning a `FAILED` status without a packet. -/
theorem C4_receiver_eval : receiver_decode none = none := rfl

/-- After deleting key `r` from the cache, lookup of `r` fails. -/
lemma cache_get_del (c : List (ℕ × tunnel_t)) (r : ℕ) :
    cache_get (cache_del c r) r = none := by
  unfold cache_get cache_del
  have hfind : (c.filter (fun e => !(e.1 == r))).find? (fun e => e.1 == r) = none := by
    rw [List.find?_eq_none]
    intro x hx
    have hmem := List.mem_filter.mp hx
    simpa using hmem.2
  rw [hfind]
  rfl

/-- After deleting a key from the established table, lookup of that
key fails. -/
lemma tunnels_get_del (l : List tunnel_t) (key : tunnel_t) :
    tunnels_get (tunnels_del l key) key = none := by
  unfold tunnels_get tunnels_del
  rw [List.find?_eq_none]
  intro x hx
  have hmem := List.mem_filter.mp hx
  simpa using hmem.2

/-- Claim C6: an outbound (tunnel-mode) `add_sa` for a request id with
no half-open record fails with `NOT_FOUND` and leaves the whole state
— both the half-open cache and the established table — unchanged. -/
theorem C6_complete_without_begin (iface : Option String) (engineOk : Bool)
    (id : kernel_ipsec_sa_id_t) (data : kernel_ipsec_add_sa_t) (s : IpsecState)
    (hmode : data.mode = ipsec_mode_t.MODE_TUNNEL)
    (hout : data.inbound = false)
    (habsent : cache_get s.cache data.reqid = none) :
    add_sa iface engineOk id data s = (status_t.NOT_FOUND, s) := by
  simp [add_sa, hmode, hout, habsent]

theorem C6_complete_without_begin_witness :
    add_sa none true { src := [], dst := [], spi := 0 }
      { reqid := 7, mode := ipsec_mode_t.MODE_TUNNEL, inbound := false,
        enc_alg := 0, enc_key := [], int_alg := 0, int_key := [] }
      { cache := [], tunnels := [], next_index := 0, manage_routes := false } =
    (status_t.NOT_FOUND,
     { cache := [], tunnels := [], next_index := 0, manage_routes := false }) :=
  C6_complete_without_begin none true _ _ _ rfl rfl rfl

/-- Claim C7: completing a tunnel (outbound `add_sa` with a matching
half-open record): if the engine create call fails, the call fails and
the record is afterwards in neither the half-open cache nor the
established table (which is unchanged); if the engine call succeeds,
the call succeeds and the completed record is in the established table
under (remote SPI, remote address) while the half-open entry is gone. -/
theorem C7_engine_outcome (iface : Option String)
    (id : kernel_ipsec_sa_id_t) (data : kernel_ipsec_add_sa_t) (s : IpsecState)
    (tun : tunnel_t) (addr : String)
    (hmode : data.mode = ipsec_mode_t.MODE_TUNNEL)
    (hout : data.inbound = false)
    (hcached : cache_get s.cache data.reqid = some tun)
    (haddr : tun.dst_addr = some addr) :
    (add_sa iface false id data s =
       (status_t.FAILED, { s with cache := cache_del s.cache data.reqid }) ∧
     cache_get (add_sa iface false id data s).2.cache data.reqid = none ∧
     (add_sa iface false id data s).2.tunnels = s.tunnels) ∧
    ((add_sa iface true id data s).1 = status_t.SUCCESS ∧
     cache_get (add_sa iface true id data s).2.cache data.reqid = none ∧
     lookup_established (add_sa iface true id data s).2 (ntohl id.spi) (some addr) =
       some { tun with
              dst_enc_key := some (chunk_to_hex data.enc_key),
              dst_int_key := some (chunk_to_hex data.int_key),
              dst_spi := ntohl id.spi }) := by
  have hfail : add_sa iface false id data s =
      (status_t.FAILED, { s with cache := cache_del s.cache data.reqid }) := by
    simp [add_sa, hmode, hout, hcached]
  have hok : add_sa iface true id data s =
      (status_t.SUCCESS,
       { s with cache := cache_del s.cache data.reqid,
                tunnels := tunnels_put s.tunnels
                  { tun with
                    dst_enc_key := some (chunk_to_hex data.enc_key),
                    dst_int_key := some (chunk_to_hex data.int_key),
                    dst_spi := ntohl id.spi } }) := by
    simp [add_sa, hmode, hout, hcached]
  refine ⟨⟨hfail, ?_, ?_⟩, ?_, ?_, ?_⟩
  · rw [hfail]
    exact cache_get_del s.cache data.reqid
  · rw [hfail]
  · rw [hok]
  · rw [hok]
    exact cache_get_del s.cache data.reqid
  · rw [hok]
    unfold lookup_established tunnels_put tunnels_get
    rw [List.find?_cons_of_pos]
    simp [tunnel_equals, mk_key, haddr]

/-- A sample established tunnel record used by the concrete witnesses:
remote SPI `ntohl 200`, remote address `9.9.9.9`. -/
def wtun : tunnel_t :=
  { if_name := "tun-0", un_if_name := "eth0", src_spi := ntohl 100,
    dst_spi := ntohl 200, src_addr := some "10.0.0.1",
    dst_addr := some "9.9.9.9", enc_alg := crypto_alg_t.NONE_CRYPTO,
    int_alg := integ_alg_t.NONE_INTEG, src_enc_key := some "",
    dst_enc_key := none, src_int_key := some "", dst_int_key := none }

/-- A sample SA identifier for the witnesses. -/
def wsaid : kernel_ipsec_sa_id_t := { src := [], dst := [], spi := 200 }

/-- A sample outbound `add_sa` argument for the witnesses. -/
def wadd_out : kernel_ipsec_add_sa_t :=
  { reqid := 1, mode := ipsec_mode_t.MODE_TUNNEL, inbound := false,
    enc_alg := 0, enc_key := [], int_alg := 0, int_key := [] }

/-- A sample registry state holding `wtun` half-open under request 1. -/
def wstate : IpsecState :=
  { cache := [(1, wtun)], tunnels := [], next_index := 1, manage_routes := false }

theorem C7_engine_outcome_witness :
    (add_sa none false wsaid wadd_out wstate).1 = status_t.FAILED ∧
    (add_sa none true wsaid wadd_out wstate).1 = status_t.SUCCESS := by
  have h := C7_engine_outcome none wsaid wadd_out wstate wtun "9.9.9.9" rfl rfl rfl rfl
  exact ⟨by rw [h.1.1], h.2.1⟩

/-- Claim C8 (amended): with route management enabled, installing an
inbound tunnel-mode IPsec policy is a success no-op issuing no route
call; installing an outbound transport-mode policy fails
`NOT_SUPPORTED`; installing an outbound tunnel-mode policy with a
matching established tunnel issues exactly one route-add call via
that tunnel interface and succeeds (when the route service succeeds);
with no matching established tunnel it fails — with the generic
`FAILED` status, not `NOT_FOUND` as the claim states. -/
theorem C8_route_policy_gating :
    (∀ rc dOk s id data sa, s.manage_routes = true →
      id.dir = policy_dir_t.POLICY_IN →
      data.type = policy_type_t.POLICY_IPSEC → data.sa = some sa →
      sa.mode = ipsec_mode_t.MODE_TUNNEL →
      add_policy rc dOk s id data = (status_t.SUCCESS, s, [])) ∧
    (∀ rc dOk s id data sa, s.manage_routes = true →
      id.dir = policy_dir_t.POLICY_OUT →
      data.type = policy_type_t.POLICY_IPSEC → data.sa = some sa →
      sa.mode = ipsec_mode_t.MODE_TRANSPORT →
      add_policy rc dOk s id data = (status_t.NOT_SUPPORTED, s, [])) ∧
    (∀ dOk s id data sa tun, s.manage_routes = true →
      id.dir = policy_dir_t.POLICY_OUT →
      data.type = policy_type_t.POLICY_IPSEC → data.sa = some sa →
      sa.mode = ipsec_mode_t.MODE_TUNNEL →
      tunnels_get s.tunnels (mk_key (ntohl sa.esp_spi) (chunk_to_ipv4 data.dst)) = some tun →
      add_policy status_t.SUCCESS dOk s id data =
        (status_t.SUCCESS, s,
         [ext_call_t.route_add id.dst_ts.subnet id.dst_ts.pfx_len data.dst tun.if_name])) ∧
    (∀ rc dOk s id data sa, s.manage_routes = true →
      id.dir = policy_dir_t.POLICY_OUT →
      data.type = policy_type_t.POLICY_IPSEC → data.sa = some sa →
      sa.mode = ipsec_mode_t.MODE_TUNNEL →
      tunnels_get s.tunnels (mk_key (ntohl sa.esp_spi) (chunk_to_ipv4 data.dst)) = none →
      add_policy rc dOk s id data = (status_t.FAILED, s, [])) := by
  refine ⟨?_, ?_, ?_, ?_⟩
  · intro rc dOk s id data sa hm hdir ht hsa hmode
    simp [add_policy, vpp_add_del_route, hm, hdir, ht, hsa, hmode]
  · intro rc dOk s id data sa hm hdir ht hsa hmode
    simp [add_policy, vpp_add_del_route, hm, hdir, ht, hsa, hmode]
  · intro dOk s id data sa tun hm hdir ht hsa hmode hget
    simp [add_policy, vpp_add_del_route, hm, hdir, ht, hsa, hmode, hget]
  · intro rc dOk s id data sa hm hdir ht hsa hmode hget
    simp [add_policy, vpp_add_del_route, hm, hdir, ht, hsa, hmode, hget]

/-- A sample policy identifier (outbound, destination subnet 10.1.0.0/24). -/
def wpolid : kernel_ipsec_policy_id_t :=
  { dir := policy_dir_t.POLICY_OUT, dst_ts := { subnet := [10, 1, 0, 0], pfx_len := 24 } }

/-- A sample outbound tunnel-mode IPsec policy towards `9.9.9.9` with
remote ESP SPI 200 (network order). -/
def wpoldata : kernel_ipsec_manage_policy_t :=
  { type := policy_type_t.POLICY_IPSEC,
    sa := some { mode := ipsec_mode_t.MODE_TUNNEL, esp_spi := 200 },
    dst := [9, 9, 9, 9] }

/-- A sample registry state with `wtun` established and routes managed. -/
def wstate2 : IpsecState :=
  { cache := [], tunnels := [wtun], next_index := 1, manage_routes := true }

theorem C8_route_policy_gating_witness :
    add_policy status_t.SUCCESS true wstate2 wpolid wpoldata =
      (status_t.SUCCESS, wstate2,
       [ext_call_t.route_add [10, 1, 0, 0] 24 [9, 9, 9, 9] "tun-0"]) := by
  have h := C8_route_policy_gating.2.2.1 true wstate2 wpolid wpoldata
    { mode := ipsec_mode_t.MODE_TUNNEL, esp_spi := 200 } wtun rfl rfl rfl rfl rfl (by decide)
  simpa [wpolid, wpoldata] using h

/-- Claim C8 counterexample: an outbound tunnel-mode IPsec policy with
no matching established tunnel makes `add_policy` return the generic
`FAILED` status, not `NOT_FOUND` as the claim states. -/
theorem C8_notfound_counterexample :
    (add_policy status_t.SUCCESS true
       { cache := [], tunnels := [], next_index := 0, manage_routes := true }
       wpolid wpoldata).1 = status_t.FAILED ∧
    status_t.FAILED ≠ status_t.NOT_FOUND := by
  refine ⟨?_, by decide⟩
  decide

/-- Claim C9: removing a qualifying outbound policy with a matching
established tunnel always attempts both the route deletion and the
engine tunnel deletion (both appear in the external-call trace
regardless of either outcome), succeeds exactly when both succeeded,
and removes the tunnel record from the established table in either
case. -/
theorem C9_remove_cleanup (routeRc : status_t) (dOk : Bool)
    (s : IpsecState) (id : kernel_ipsec_policy_id_t)
    (data : kernel_ipsec_manage_policy_t) (sa : ipsec_sa_cfg_t) (tun : tunnel_t)
    (hm : s.manage_routes = true) (hdir : id.dir = policy_dir_t.POLICY_OUT)
    (ht : data.type = policy_type_t.POLICY_IPSEC) (hsa : data.sa = some sa)
    (hmode : sa.mode = ipsec_mode_t.MODE_TUNNEL)
    (hget : tunnels_get s.tunnels
      (mk_key (ntohl sa.esp_spi) (chunk_to_ipv4 data.dst)) = some tun) :
    (del_policy routeRc dOk s id data).2.2 =
      [ext_call_t.route_del id.dst_ts.subnet id.dst_ts.pfx_len data.dst tun.if_name,
       ext_call_t.tunnel_del tun.if_name] ∧
    ((del_policy routeRc dOk s id data).1 = status_t.SUCCESS ↔
      (routeRc = status_t.SUCCESS ∧ dOk = true)) ∧
    (del_policy routeRc dOk s id data).2.1.tunnels =
      tunnels_del s.tunnels (mk_key (ntohl sa.esp_spi) (chunk_to_ipv4 data.dst)) := by
  have hrun : del_policy routeRc dOk s id data =
      ((if dOk then routeRc else status_t.FAILED),
       { s with tunnels := tunnels_del s.tunnels (mk_key (ntohl sa.esp_spi) (chunk_to_ipv4 data.dst)) },
       [ext_call_t.route_del id.dst_ts.subnet id.dst_ts.pfx_len data.dst tun.if_name,
        ext_call_t.tunnel_del tun.if_name]) := by
    simp [del_policy, vpp_add_del_route, hm, hdir, ht, hsa, hmode, hget]
  rw [hrun]
  refine ⟨rfl, ?_, rfl⟩
  cases dOk <;> cases routeRc <;> simp

theorem C9_remove_cleanup_witness :
    (del_policy status_t.SUCCESS true wstate2 wpolid wpoldata).1 = status_t.SUCCESS ∧
    (del_policy status_t.SUCCESS true wstate2 wpolid wpoldata).2.1.tunnels = [] := by
  have h1 := C9_remove_cleanup status_t.SUCCESS true wstate2 wpolid wpoldata
    { mode := ipsec_mode_t.MODE_TUNNEL, esp_spi := 200 } wtun
    rfl rfl rfl rfl rfl (by decide)
  refine ⟨h1.2.1.mpr ⟨rfl, rfl⟩, ?_⟩
  rw [h1.2.2]
  decide

/-- Claim C2: from a fresh registry, an inbound `add_sa` under request
id `r` followed by an outbound `add_sa` under the same request id with
remote SPI `idOut.spi` (engine create succeeding) both succeed, the
completed tunnel is retrievable from the established table by
(remote SPI, remote address), removing it by that key yields the
record, and a second lookup after the removal returns nothing. -/
theorem C2_tunnel_lifecycle
    (n0 : ℕ) (mr : Bool) (iface : String)
    (idIn idOut : kernel_ipsec_sa_id_t) (dIn dOut : kernel_ipsec_add_sa_t)
    (s0 s1 s2 : IpsecState) (rc1 rc2 : status_t)
    (ea : crypto_alg_t) (ia : integ_alg_t) (sa4 da4 : String)
    (hin : dIn.inbound = true) (hout : dOut.inbound = false)
    (hm1 : dIn.mode = ipsec_mode_t.MODE_TUNNEL)
    (hm2 : dOut.mode = ipsec_mode_t.MODE_TUNNEL)
    (hreq : dOut.reqid = dIn.reqid)
    (hea : convert_enc_alg dIn.enc_alg dIn.enc_key = some ea)
    (hia : convert_int_alg dIn.int_alg = some ia)
    (hsa4 : chunk_to_ipv4 idIn.src = some sa4)
    (hda4 : chunk_to_ipv4 idIn.dst = some da4)
    (hs0 : s0 = { cache := [], tunnels := [], next_index := n0, manage_routes := mr })
    (h1 : add_sa (some iface) true idIn dIn s0 = (rc1, s1))
    (h2 : add_sa (some iface) true idOut dOut s1 = (rc2, s2)) :
    rc1 = status_t.SUCCESS ∧ rc2 = status_t.SUCCESS ∧
    (lookup_established s2 (ntohl idOut.spi) (some sa4)).isSome = true ∧
    (remove_established s2 (ntohl idOut.spi) (some sa4)).1.isSome = true ∧
    lookup_established (remove_established s2 (ntohl idOut.spi) (some sa4)).2
      (ntohl idOut.spi) (some sa4) = none := by
  subst hs0
  have e1 : add_sa (some iface) true idIn dIn
      { cache := [], tunnels := [], next_index := n0, manage_routes := mr } =
      (status_t.SUCCESS,
       { cache := [(dIn.reqid,
           { if_name := "tun-" ++ toString n0, un_if_name := iface,
             src_spi := ntohl idIn.spi, dst_spi := 0,
             src_addr := some da4, dst_addr := some sa4,
             enc_alg := ea, int_alg := ia,
             src_enc_key := some (chunk_to_hex dIn.enc_key), dst_enc_key := none,
             src_int_key := some (chunk_to_hex dIn.int_key), dst_int_key := none })],
         tunnels := [], next_index := n0 + 1, manage_routes := mr }) := by
    simp [add_sa, hm1, hin, hea, hia, hsa4, hda4, cache_put, cache_del]
  rw [e1] at h1
  injection h1 with hrc1 hs1
  subst hs1
  have e2 : add_sa (some iface) true idOut dOut
      { cache := [(dIn.reqid,
          { if_name := "tun-" ++ toString n0, un_if_name := iface,
            src_spi := ntohl idIn.spi, dst_spi := 0,
            src_addr := some da4, dst_addr := some sa4,
            enc_alg := ea, int_alg := ia,
            src_enc_key := some (chunk_to_hex dIn.enc_key), dst_enc_key := none,
            src_int_key := some (chunk_to_hex dIn.int_key), dst_int_key := none })],
        tunnels := [], next_index := n0 + 1, manage_routes := mr } =
      (status_t.SUCCESS,
       { cache := [],
         tunnels :=
           [{ if_name := "tun-" ++ toString n0, un_if_name := iface,
              src_spi := ntohl idIn.spi, dst_spi := ntohl idOut.spi,
              src_addr := some da4, dst_addr := some sa4,
              enc_alg := ea, int_alg := ia,
              src_enc_key := some (chunk_to_hex dIn.enc_key),
              dst_enc_key := some (chunk_to_hex dOut.enc_key),
              src_int_key := some (chunk_to_hex dIn.int_key),
              dst_int_key := some (chunk_to_hex dOut.int_key) }],
         next_index := n0 + 1, manage_routes := mr }) := by
    simp [add_sa, hm2, hout, hreq, cache_get, cache_del, tunnels_put, tunnels_del]
  rw [e2] at h2
  injection h2 with hrc2 hs2
  subst hs2
  refine ⟨hrc1.symm, hrc2.symm, ?_, ?_, ?_⟩
  · simp [lookup_established, tunnels_get, mk_key, tunnel_equals]
  · simp [remove_established, tunnels_get, mk_key, tunnel_equals]
  · exact tunnels_get_del _ _

/-- Sample inbound SA identifier: remote `9.9.9.9`, local `10.0.0.1`,
local SPI 100 (network order). -/
def widIn : kernel_ipsec_sa_id_t := { src := [9, 9, 9, 9], dst := [10, 0, 0, 1], spi := 100 }

/-- Sample outbound SA identifier with remote SPI 200 (network order). -/
def widOut : kernel_ipsec_sa_id_t := { src := [10, 0, 0, 1], dst := [9, 9, 9, 9], spi := 200 }

/-- Sample inbound `add_sa` data: request 1, null cipher, no integrity. -/
def wdIn : kernel_ipsec_add_sa_t :=
  { reqid := 1, mode := ipsec_mode_t.MODE_TUNNEL, inbound := true,
    enc_alg := 11, enc_key := [], int_alg := 1024, int_key := [] }

/-- Sample outbound `add_sa` data for request 1. -/
def wdOut : kernel_ipsec_add_sa_t :=
  { reqid := 1, mode := ipsec_mode_t.MODE_TUNNEL, inbound := false,
    enc_alg := 11, enc_key := [], int_alg := 1024, int_key := [] }

/-- A fresh registry state. -/
def ws0 : IpsecState :=
  { cache := [], tunnels := [], next_index := 0, manage_routes := true }

theorem C2_tunnel_lifecycle_witness :
    (add_sa (some "eth0") true widIn wdIn ws0).1 = status_t.SUCCESS ∧
    (add_sa (some "eth0") true widOut wdOut
      (add_sa (some "eth0") true widIn wdIn ws0).2).1 = status_t.SUCCESS ∧
    (lookup_established
      (add_sa (some "eth0") true widOut wdOut
        (add_sa (some "eth0") true widIn wdIn ws0).2).2
      (ntohl 200) (some "9.9.9.9")).isSome = true := by
  have h := C2_tunnel_lifecycle 0 true "eth0" widIn widOut wdIn wdOut
    ws0 (add_sa (some "eth0") true widIn wdIn ws0).2
    (add_sa (some "eth0") true widOut wdOut (add_sa (some "eth0") true widIn wdIn ws0).2).2
    (add_sa (some "eth0") true widIn wdIn ws0).1
    (add_sa (some "eth0") true widOut wdOut (add_sa (some "eth0") true widIn wdIn ws0).2).1
    crypto_alg_t.NONE_CRYPTO integ_alg_t.NONE_INTEG "9.9.9.9" "10.0.0.1"
    rfl rfl rfl rfl rfl (by decide) (by decide) (by decide) (by decide) rfl rfl rfl
  exact ⟨h.1, h.2.1, h.2.2.1⟩
